import Mathlib

/-!
Verification development for `generate_technical_report.py`: a shallow
embedding of the `TechnicalReportGenerator` class (a document assembly
pipeline over the reportlab platypus collaborator) and proofs about it.

Modelling conventions:
- lengths are integers in tenths of a point (`inch = 720`, `pts`);
- colors are their hex strings; `reportlab` named colors are fixed records;
- a flowable ("content block") is a `Block`: paragraph, spacer, table or
  page break; a paragraph carries the resolved `ParagraphStyle` it was
  built with, a table carries its row data, column widths and style
  commands;
- the style sheet is an ordered list of `ParagraphStyle`; `add` fails on a
  duplicate name (Python raises `KeyError`), `get` is lookup by name and a
  missing name is an error (Python raises `KeyError`), so the section
  builders and the constructor return `Except String _`;
- the current date read by `datetime.now()` in `add_cover_page` is an
  explicit parameter `today` threaded from the entry point;
- the external rendering collaborator (`SimpleDocTemplate.build`) is
  modelled from the spec's collaborator contract as a deterministic
  function of the page geometry and the story; `print` logging and the
  final `os.path.getsize` call are outside the model.
-/

deriving instance DecidableEq for Except

namespace Report

/-- A color as the source constructs it: `HexColor('#rrggbb')` or a named
reportlab color. -/
structure Color where
  hex : String
deriving DecidableEq, Repr

/-- `HexColor` from `reportlab.lib.colors`. -/
def HexColor (s : String) : Color := ⟨s⟩

/-- `white` from `reportlab.lib.colors`. -/
def white : Color := ⟨"#ffffff"⟩

/-- `black` from `reportlab.lib.colors`. -/
def black : Color := ⟨"#000000"⟩

/-- Lengths are integers in tenths of a point (every length literal of the
source is a whole multiple of 0.1 pt, so this scale is exact and the
kernel can compute on it); `inch` is one inch at that scale, and the
source's `X*inch` is written `(10*X) * inch / 10`. -/
def inch : ℤ := 720

/-- `n` points at the tenth-of-a-point scale. -/
def pts (n : ℤ) : ℤ := 10 * n

/-- `letter` page size from `reportlab.lib.pagesizes`. -/
def letter : ℤ × ℤ := (85 * inch / 10, 11 * inch)

/-- `TA_LEFT` from `reportlab.lib.enums`. -/
def TA_LEFT : ℕ := 0

/-- `TA_CENTER` from `reportlab.lib.enums`. -/
def TA_CENTER : ℕ := 1

/-- `TA_RIGHT` from `reportlab.lib.enums`. -/
def TA_RIGHT : ℕ := 2

/-- `TA_JUSTIFY` from `reportlab.lib.enums`. -/
def TA_JUSTIFY : ℕ := 4

/-- A named paragraph style: the constructor keyword arguments the source
passes to `ParagraphStyle`; an attribute the source does not set is `none`
(it is inherited from the parent by the collaborator). -/
structure ParagraphStyle where
  name : String
  parent : Option String := none
  fontSize : Option ℤ := none
  textColor : Option Color := none
  spaceAfter : Option ℤ := none
  spaceBefore : Option ℤ := none
  alignment : Option ℕ := none
  fontName : Option String := none
  leftIndent : Option ℤ := none
  rightIndent : Option ℤ := none
  backColor : Option Color := none
  borderColor : Option Color := none
  borderWidth : Option ℤ := none
  borderPadding : Option ℤ := none
deriving DecidableEq, Repr

/-- One argument of a `TableStyle` command. -/
inductive TableArg where
  | color (c : Color)
  | str (s : String)
  | num (q : ℤ)
  | colorList (cs : List Color)
deriving DecidableEq, Repr

/-- One `TableStyle` command `(op, start, stop, args...)`. -/
structure TableCmd where
  op : String
  start : ℤ × ℤ
  stop : ℤ × ℤ
  args : List TableArg
deriving DecidableEq, Repr

/-- A platypus flowable appended to the story. -/
inductive Block where
  | paragraph (text : String) (style : ParagraphStyle)
  | spacer (width : ℤ) (height : ℤ)
  | table (data : List (List String)) (colWidths : List ℤ) (style : List TableCmd)
  | pageBreak
deriving DecidableEq, Repr

/-- The paragraph styles a block carries (only paragraphs carry one; table
styles are command lists, not registry styles). -/
def Block.styles : Block → List ParagraphStyle
  | .paragraph _ st => [st]
  | _ => []

/-- The `SimpleDocTemplate` configuration built in `__init__`: output path,
page size and margins. -/
structure DocTemplate where
  filename : String
  pagesize : ℤ × ℤ
  rightMargin : ℤ
  leftMargin : ℤ
  topMargin : ℤ
  bottomMargin : ℤ
deriving DecidableEq, Repr

/-- The style registry: an ordered list of named paragraph styles, as the
reportlab stylesheet holds them. -/
abbrev StyleSheet : Type := List ParagraphStyle

/-- Lookup by name, `self.styles['Name']` (`None` models `KeyError`). -/
def StyleSheet.get (ss : StyleSheet) (name : String) : Option ParagraphStyle :=
  ss.find? (fun s => s.name == name)

/-- Lookup by name in the `Except` monad of the section builders. -/
def StyleSheet.getE (ss : StyleSheet) (name : String) : Except String ParagraphStyle :=
  match ss.get name with
  | some st => .ok st
  | none => .error name

/-- `styles.add(style)`: appends the style; a duplicate name raises. -/
def StyleSheet.add (ss : StyleSheet) (st : ParagraphStyle) : Except String StyleSheet :=
  if ss.any (fun s => s.name == st.name) then .error st.name
  else .ok (ss ++ [st])

/-- Modelled from the spec: the rendering collaborator's built-in sample
stylesheet (`getSampleStyleSheet()` of `reportlab.lib.styles`, an external
collaborator whose code is not in the repository). Only the built-in names
and the existence of the sample style `Code` matter to this development;
the visual attributes stay `none`. -/
def sampleStyleSheet : StyleSheet :=
  [ { name := "Normal" },
    { name := "BodyText", parent := some "Normal" },
    { name := "Italic", parent := some "BodyText" },
    { name := "Heading1", parent := some "Normal" },
    { name := "Title", parent := some "Normal" },
    { name := "Heading2", parent := some "Normal" },
    { name := "Heading3", parent := some "Normal" },
    { name := "Heading4", parent := some "Normal" },
    { name := "Heading5", parent := some "Normal" },
    { name := "Heading6", parent := some "Normal" },
    { name := "Bullet", parent := some "Normal" },
    { name := "Definition", parent := some "Normal" },
    { name := "Code", parent := some "Normal" },
    { name := "UnorderedList", parent := some "Normal" },
    { name := "OrderedList", parent := some "Normal" } ]

/-- The `CustomTitle` style registered by `_setup_custom_styles`. -/
def customTitleStyle : ParagraphStyle :=
  { name := "CustomTitle", parent := some "Heading1", fontSize := some (pts 24),
    textColor := some (HexColor "#1e3a8a"), spaceAfter := some (pts 30),
    alignment := some TA_CENTER, fontName := some "Helvetica-Bold" }

/-- The `CustomSubtitle` style registered by `_setup_custom_styles`. -/
def customSubtitleStyle : ParagraphStyle :=
  { name := "CustomSubtitle", parent := some "Heading2", fontSize := some (pts 16),
    textColor := some (HexColor "#3b82f6"), spaceAfter := some (pts 12),
    spaceBefore := some (pts 12), fontName := some "Helvetica-Bold" }

/-- The `Section` style registered by `_setup_custom_styles`. -/
def sectionStyle : ParagraphStyle :=
  { name := "Section", parent := some "Heading2", fontSize := some (pts 14),
    textColor := some (HexColor "#1e40af"), spaceAfter := some (pts 10),
    spaceBefore := some (pts 20), fontName := some "Helvetica-Bold",
    borderColor := some (HexColor "#3b82f6"), borderWidth := some (pts 0),
    borderPadding := some (pts 5) }

/-- The `Subsection` style registered by `_setup_custom_styles`. -/
def subsectionStyle : ParagraphStyle :=
  { name := "Subsection", parent := some "Heading3", fontSize := some (pts 12),
    textColor := some (HexColor "#2563eb"), spaceAfter := some (pts 8),
    spaceBefore := some (pts 10), fontName := some "Helvetica-Bold" }

/-- The `CustomCode` style registered by `_setup_custom_styles`. -/
def customCodeStyle : ParagraphStyle :=
  { name := "CustomCode", parent := some "Normal", fontSize := some (pts 9),
    fontName := some "Courier", textColor := some (HexColor "#1f2937"),
    leftIndent := some (pts 20), rightIndent := some (pts 20), spaceAfter := some (pts 10),
    spaceBefore := some (pts 10), backColor := some (HexColor "#f3f4f6") }

/-- The `Highlight` style registered by `_setup_custom_styles`. -/
def highlightStyle : ParagraphStyle :=
  { name := "Highlight", parent := some "BodyText", fontSize := some (pts 11),
    textColor := some (HexColor "#dc2626"), fontName := some "Helvetica-Bold" }

/-- The `Metric` style registered by `_setup_custom_styles`. -/
def metricStyle : ParagraphStyle :=
  { name := "Metric", parent := some "BodyText", fontSize := some (pts 10),
    textColor := some (HexColor "#059669"), fontName := some "Helvetica-Bold",
    leftIndent := some (pts 15) }

/-- `_setup_custom_styles`: registers the seven custom styles in source
order; any name collision with an already registered style raises. -/
def setup_custom_styles (ss : StyleSheet) : Except String StyleSheet := do
  let ss ← ss.add customTitleStyle
  let ss ← ss.add customSubtitleStyle
  let ss ← ss.add sectionStyle
  let ss ← ss.add subsectionStyle
  let ss ← ss.add customCodeStyle
  let ss ← ss.add highlightStyle
  let ss ← ss.add metricStyle
  return ss

/-- The style registry every constructed generator carries: the sample
stylesheet followed by the seven custom styles, in registration order. -/
def reportStyles : StyleSheet :=
  sampleStyleSheet ++
    [ customTitleStyle, customSubtitleStyle, sectionStyle, subsectionStyle,
      customCodeStyle, highlightStyle, metricStyle ]

/-- The `SimpleDocTemplate(filename, pagesize=letter, ...)` built in
`__init__`. -/
def mkDocTemplate (filename : String) : DocTemplate :=
  { filename := filename, pagesize := letter,
    rightMargin := 75 * inch / 100, leftMargin := 75 * inch / 100,
    topMargin := 75 * inch / 100, bottomMargin := 75 * inch / 100 }

/-- The state of a `TechnicalReportGenerator` instance. -/
structure Generator where
  filename : String
  doc : DocTemplate
  styles : StyleSheet
  story : List Block
deriving DecidableEq, Repr

/-- The default value of the constructor's `filename` parameter. -/
def defaultFilename : String := "JobNimbus_MCP_Technical_Optimization_Report.pdf"

/-- `__init__`: stores the filename, builds the document template, takes
the sample stylesheet, starts an empty story, and runs
`_setup_custom_styles` (whose `add` calls raise on a name collision). -/
def initE (filename : String) : Except String Generator := do
  let styles ← setup_custom_styles sampleStyleSheet
  return { filename := filename, doc := mkDocTemplate filename,
           styles := styles, story := [] }

/-- The generator `__init__` actually yields (registration succeeds;
`initE_eq` below proves the two agree). -/
def init (filename : String) : Generator :=
  { filename := filename, doc := mkDocTemplate filename,
    styles := reportStyles, story := [] }

/-! ## Cover page (`add_cover_page`) -/

/-- `summary_data` of `add_cover_page`. -/
def summary_data : List (List String) :=
  [ ["Componente", "Valor"],
    ["Herramientas Analizadas", "88 (73 activas)"],
    ["Líneas de Código", "53,515"],
    ["Tablas de Datos", "8 (Jobs, Contacts, Estimates, Invoices, etc.)"],
    ["Reducción Proyectada de Tokens", "90-98%"],
    ["Ahorro Anual Estimado", "$437,400 (deployment mediano)"],
    ["ROI Proyectado", "1,458% anual"] ]

/-- The `TableStyle` of the cover summary table. -/
def summary_table_style : List TableCmd :=
  [ ⟨"BACKGROUND", (0, 0), (-1, 0), [.color (HexColor "#1e3a8a")]⟩,
    ⟨"TEXTCOLOR", (0, 0), (-1, 0), [.color white]⟩,
    ⟨"ALIGN", (0, 0), (-1, -1), [.str "LEFT"]⟩,
    ⟨"FONTNAME", (0, 0), (-1, 0), [.str "Helvetica-Bold"]⟩,
    ⟨"FONTSIZE", (0, 0), (-1, 0), [.num (pts 11)]⟩,
    ⟨"BOTTOMPADDING", (0, 0), (-1, 0), [.num (pts 12)]⟩,
    ⟨"BACKGROUND", (0, 1), (-1, -1), [.color (HexColor "#f3f4f6")]⟩,
    ⟨"GRID", (0, 0), (-1, -1), [.num (pts 1), .color (HexColor "#d1d5db")]⟩,
    ⟨"FONTNAME", (0, 1), (-1, -1), [.str "Helvetica"]⟩,
    ⟨"FONTSIZE", (0, 1), (-1, -1), [.num (pts 10)]⟩,
    ⟨"ROWBACKGROUNDS", (0, 1), (-1, -1), [.colorList [white, HexColor "#f9fafb"]]⟩ ]

/-- `info_text` of the cover page: an f-string whose interpolated field is
the formatted current date (`datetime.now().strftime('%d de %B, %Y')`),
passed here as `today`. -/
def coverInfoText (today : String) : String :=
  "<para alignment=\"center\"> <b>Fecha de Generación:</b> " ++ today ++
  "<br/> <b>Versión del Servidor:</b> 1.0.2<br/>" ++
  " <b>Agentes Especializados:</b> 4 (Architect, Performance, Database, Backend)<br/>" ++
  " <b>Nivel de Análisis:</b> Ultra-Deep con AI Insights </para>"

/-- The blocks `add_cover_page` appends, given the registry and the
current date. -/
def coverPageBlocks (styles : StyleSheet) (today : String) :
    Except String (List Block) := do
  let customTitle ← styles.getE "CustomTitle"
  let customSubtitle ← styles.getE "CustomSubtitle"
  let bodyText ← styles.getE "BodyText"
  return [
      Block.paragraph "JobNimbus MCP Remote Server" customTitle,
      .spacer (pts 1) (30 * inch / 100),
      .paragraph "Análisis Técnico Especializado de Optimización" customSubtitle,
      .spacer (pts 1) (50 * inch / 100),
      .table summary_data [3 * inch, 25 * inch / 10] summary_table_style,
      .spacer (pts 1) (50 * inch / 100),
      .paragraph (coverInfoText today) bodyText,
      .pageBreak ]

/-- `add_cover_page`: appends the cover blocks to the story. -/
def Generator.add_cover_page (g : Generator) (today : String) :
    Except String Generator :=
  (coverPageBlocks g.styles today).map fun bs => { g with story := g.story ++ bs }

/-! ## Executive summary (`add_executive_summary`) -/

/-- The `summary` paragraph of `add_executive_summary`. -/
def execSummaryText : String :=
  "El servidor JobNimbus MCP Remote presenta un <b>problema crítico de " ++
  "sobre-transmisión de datos</b> que resulta en un consumo excesivo de tokens " ++
  "(10,000-1,250,000 tokens por consulta), saturación del contexto del chat, " ++
  "y costos operacionales elevados ($40,500/mes en deployment mediano)."

/-- `problems` of `add_executive_summary`. -/
def problems : List String :=
  [ "<b>1. Over-Fetching Masivo (CRITICAL):</b> Patrón fetch-all-then-filter que descarga 2,000 jobs (5 MB) para retornar 30 filtrados (75 KB), desperdiciando 98.5% de los datos.",
    "<b>2. Campos JSONB sin Optimizar (HIGH):</b> Transmisión completa de campos JSONB que pueden alcanzar 100-400 KB por registro cuando solo se necesitan 5-10 KB.",
    "<b>3. Sin Compresión HTTP (CRITICAL):</b> Falta middleware compression() en Express, perdiendo 60-80% de potencial ahorro de bandwidth.",
    "<b>4. Límites por Defecto Muy Altos (HIGH):</b> maxIterations=20 permite fetch de 2,000 jobs; debería ser 5 (reducción de 75%).",
    "<b>5. Phase 3 No Es Default (MEDIUM):</b> Handle-based system existe pero requiere parámetros explícitos; 80% de herramientas no lo usan.",
    "<b>6. Herramientas Analíticas Sin Optimizar (HIGH):</b> 21 herramientas procesan 100-500 registros en memoria sin paginación ni lazy loading." ]

/-- `impact_data` of `add_executive_summary`. -/
def impact_data : List (List String) :=
  [ ["Métrica", "Antes", "Después", "Mejora"],
    ["Response Size", "120 KB", "12 KB", "90% ↓"],
    ["Token Usage", "30,000", "3,000", "90% ↓"],
    ["P50 Latency", "520 ms", "38 ms", "93% ↓"],
    ["P95 Latency", "1,450 ms", "180 ms", "88% ↓"],
    ["Cache Hit Rate", "45%", "87%", "93% ↑"],
    ["Throughput", "140 req/s", "426 req/s", "3x ↑"],
    ["Costo Mensual", "$40,500", "$4,050", "$36,450 ahorro"] ]

/-- The `TableStyle` of the impact table. -/
def impact_table_style : List TableCmd :=
  [ ⟨"BACKGROUND", (0, 0), (-1, 0), [.color (HexColor "#1e3a8a")]⟩,
    ⟨"TEXTCOLOR", (0, 0), (-1, 0), [.color white]⟩,
    ⟨"ALIGN", (0, 0), (-1, -1), [.str "CENTER"]⟩,
    ⟨"FONTNAME", (0, 0), (-1, 0), [.str "Helvetica-Bold"]⟩,
    ⟨"FONTSIZE", (0, 0), (-1, 0), [.num (pts 10)]⟩,
    ⟨"BOTTOMPADDING", (0, 0), (-1, 0), [.num (pts 10)]⟩,
    ⟨"BACKGROUND", (0, 1), (-1, -1), [.color (HexColor "#f3f4f6")]⟩,
    ⟨"GRID", (0, 0), (-1, -1), [.num (pts 1), .color (HexColor "#d1d5db")]⟩,
    ⟨"FONTNAME", (0, 1), (-1, -1), [.str "Helvetica"]⟩,
    ⟨"FONTSIZE", (0, 1), (-1, -1), [.num (pts 9)]⟩ ]

/-- `recommendations` of `add_executive_summary`. -/
def recommendations : List String :=
  [ "<b>Semana 1-2:</b> Implementar Query Delegation Pattern + compression middleware + reducir límites default (maxIterations: 20→5, fetchSize: 500→100)",
    "<b>Semana 3-4:</b> Implementar JSONB Field Projection + forzar verbosity='compact' por defecto en todas las herramientas",
    "<b>Semana 5-6:</b> Migrar 58 herramientas restantes a Phase 3 + optimizar top 10 herramientas analíticas",
    "<b>Mes 2:</b> Implementar Aggregation Service + Smart Cache Invalidation + Streaming Responses" ]

/-- The blocks `add_executive_summary` appends (the two `for` loops over
`problems` and `recommendations` each append a paragraph then a spacer). -/
def executiveSummaryBlocks (styles : StyleSheet) : Except String (List Block) := do
  let sectionS ← styles.getE "Section"
  let bodyText ← styles.getE "BodyText"
  let subsectionS ← styles.getE "Subsection"
  return [
      Block.paragraph "RESUMEN EJECUTIVO" sectionS,
      Block.paragraph execSummaryText bodyText,
      Block.spacer (pts 1) (pts 12),
      Block.paragraph "Problemas Críticos Identificados:" subsectionS ] ++
    problems.flatMap (fun p => [Block.paragraph p bodyText, Block.spacer (pts 1) (pts 8)]) ++
    [ Block.spacer (pts 1) (pts 12),
      Block.paragraph "Impacto Cuantificado:" subsectionS,
      Block.table impact_data [18 * inch / 10, 12 * inch / 10, 12 * inch / 10, 13 * inch / 10] impact_table_style,
      Block.spacer (pts 1) (pts 12),
      Block.paragraph "Recomendaciones Principales (Prioridad CRITICAL):" subsectionS ] ++
    recommendations.flatMap (fun r => [Block.paragraph r bodyText, Block.spacer (pts 1) (pts 8)]) ++
    [Block.pageBreak]

/-- `add_executive_summary`: appends the executive summary blocks. -/
def Generator.add_executive_summary (g : Generator) : Except String Generator :=
  (executiveSummaryBlocks g.styles).map fun bs => { g with story := g.story ++ bs }

/-! ## Technical analysis (`add_technical_analysis`) -/

/-- `arch_text` of `add_technical_analysis`. -/
def archText : String :=
  "El servidor utiliza una arquitectura de <b>4 capas</b>: Presentación (MCP Protocol), " ++
  "Lógica de Negocio (73 tool classes), Servicios (JobNimbusClient, CacheService, HandleStorage), " ++
  "y Datos (JobNimbus REST API + Redis Cache). La arquitectura es fundamentalmente <b>stateless</b> " ++
  "con un sistema handle-based para respuestas grandes implementado parcialmente (Phase 3)."

/-- `stack_data` of `add_technical_analysis`. -/
def stack_data : List (List String) :=
  [ ["Componente", "Tecnología", "Versión"],
    ["Runtime", "Node.js", ">=20.0.0"],
    ["Framework", "Express.js", "4.18.2"],
    ["Lenguaje", "TypeScript", "5.9.3"],
    ["Protocol", "MCP SDK", "0.5.0"],
    ["Cache", "Redis (ioredis)", "5.8.1"],
    ["Security", "Helmet", "7.1.0"],
    ["Logging", "Winston", "3.11.0"],
    ["Validation", "Zod", "3.22.4"] ]

/-- The `TableStyle` of the stack table. -/
def stack_table_style : List TableCmd :=
  [ ⟨"BACKGROUND", (0, 0), (-1, 0), [.color (HexColor "#1e3a8a")]⟩,
    ⟨"TEXTCOLOR", (0, 0), (-1, 0), [.color white]⟩,
    ⟨"ALIGN", (0, 0), (-1, -1), [.str "LEFT"]⟩,
    ⟨"FONTNAME", (0, 0), (-1, 0), [.str "Helvetica-Bold"]⟩,
    ⟨"FONTSIZE", (0, 0), (-1, 0), [.num (pts 10)]⟩,
    ⟨"BOTTOMPADDING", (0, 0), (-1, 0), [.num (pts 10)]⟩,
    ⟨"BACKGROUND", (0, 1), (-1, -1), [.color (HexColor "#f9fafb")]⟩,
    ⟨"GRID", (0, 0), (-1, -1), [.num (pts 1), .color (HexColor "#d1d5db")]⟩,
    ⟨"FONTNAME", (0, 1), (-1, -1), [.str "Helvetica"]⟩,
    ⟨"FONTSIZE", (0, 1), (-1, -1), [.num (pts 9)]⟩,
    ⟨"ROWBACKGROUNDS", (0, 1), (-1, -1), [.colorList [white, HexColor "#f3f4f6"]]⟩ ]

/-- `transmission_text` of `add_technical_analysis`. -/
def transmissionText : String :=
  "La transmisión de datos actual presenta <b>ineficiencias masivas</b> en tres niveles:"

/-- `transmission_issues` of `add_technical_analysis`. -/
def transmission_issues : List String :=
  [ "<b>Nivel 1 - Fetch:</b> Se descargan 95-99% más datos de los necesarios debido al patrón fetch-all-then-filter. Ejemplo: getJobs con filtro de fecha descarga 2,000 jobs (300 MB) para retornar 150 (30 KB).",
    "<b>Nivel 2 - Serialización:</b> Campos JSONB (custom_fields, related, tags, items) se transmiten completos sin compactación. Un job con 89+ campos puede ocupar 150 KB cuando solo se necesitan 5 KB.",
    "<b>Nivel 3 - Compresión:</b> No hay middleware de compresión HTTP. GZIP reduciría 60% el tamaño de responses, Brotli 70%." ]

/-- `scenarios_data` of `add_technical_analysis`. -/
def scenarios_data : List (List String) :=
  [ ["Escenario", "Fetch", "Return", "Desperdicio", "Tokens"],
    ["Get Jobs (sin filtros)", "12 KB", "12 KB", "0%", "3,000"],
    ["Get Jobs (filtros fecha)", "300 MB", "30 KB", "99.99%", "7,500"],
    ["Insurance Pipeline", "40 MB", "200 KB", "99.5%", "50,000"],
    ["Get Job (con verify)", "2.65 MB", "8 KB", "99.7%", "2,000"],
    ["Revenue Report", "150 MB", "500 KB", "99.67%", "1,250,000"] ]

/-- The `TableStyle` of the scenarios table. -/
def scenarios_table_style : List TableCmd :=
  [ ⟨"BACKGROUND", (0, 0), (-1, 0), [.color (HexColor "#dc2626")]⟩,
    ⟨"TEXTCOLOR", (0, 0), (-1, 0), [.color white]⟩,
    ⟨"ALIGN", (0, 0), (-1, -1), [.str "CENTER"]⟩,
    ⟨"FONTNAME", (0, 0), (-1, 0), [.str "Helvetica-Bold"]⟩,
    ⟨"FONTSIZE", (0, 0), (-1, 0), [.num (pts 9)]⟩,
    ⟨"BOTTOMPADDING", (0, 0), (-1, 0), [.num (pts 8)]⟩,
    ⟨"BACKGROUND", (0, 1), (-1, -1), [.color (HexColor "#fef2f2")]⟩,
    ⟨"GRID", (0, 0), (-1, -1), [.num (pts 1), .color (HexColor "#fecaca")]⟩,
    ⟨"FONTNAME", (0, 1), (-1, -1), [.str "Helvetica"]⟩,
    ⟨"FONTSIZE", (0, 1), (-1, -1), [.num (pts 8)]⟩ ]

/-- The `warning` paragraph text of `add_technical_analysis`. -/
def warningText : String :=
  "<b>⚠️ NOTA CRÍTICA:</b> Los escenarios con desperdicio >99% son insostenibles en producción y causan saturación del chat."

/-- The blocks `add_technical_analysis` appends. -/
def technicalAnalysisBlocks (styles : StyleSheet) : Except String (List Block) := do
  let sectionS ← styles.getE "Section"
  let subsectionS ← styles.getE "Subsection"
  let bodyText ← styles.getE "BodyText"
  let highlight ← styles.getE "Highlight"
  return [
      Block.paragraph "ANÁLISIS TÉCNICO DETALLADO" sectionS,
      Block.paragraph "1. Arquitectura Actual del Sistema" subsectionS,
      Block.paragraph archText bodyText,
      Block.spacer (pts 1) (pts 12),
      Block.paragraph "Stack Tecnológico:" subsectionS,
      Block.table stack_data [18 * inch / 10, 2 * inch, 15 * inch / 10] stack_table_style,
      Block.spacer (pts 1) (pts 15),
      Block.paragraph "2. Análisis de Transmisión de Datos" subsectionS,
      Block.paragraph transmissionText bodyText,
      Block.spacer (pts 1) (pts 10) ] ++
    transmission_issues.flatMap (fun s => [Block.paragraph s bodyText, Block.spacer (pts 1) (pts 8)]) ++
    [ Block.spacer (pts 1) (pts 12),
      Block.paragraph "Escenarios de Uso y Consumo de Datos:" subsectionS,
      Block.table scenarios_data [15 * inch / 10, 1 * inch, 1 * inch, 1 * inch, 1 * inch] scenarios_table_style,
      Block.spacer (pts 1) (pts 10),
      Block.paragraph warningText highlight,
      Block.pageBreak ]

/-- `add_technical_analysis`: appends the technical analysis blocks. -/
def Generator.add_technical_analysis (g : Generator) : Except String Generator :=
  (technicalAnalysisBlocks g.styles).map fun bs => { g with story := g.story ++ bs }

/-! ## Optimization strategies (`add_optimization_strategies`)

The code snippet paragraphs use the built-in sample style `Code`
(`self.styles['Code']`), not the registered custom style `CustomCode`.
Literal braces of the snippets are written `\x7b` and `\x7d`. -/

/-- `intro` of `add_optimization_strategies`. -/
def optIntroText : String :=
  "Se han diseñado <b>6 estrategias de optimización</b> complementarias que trabajan en conjunto " ++
  "para reducir la transmisión de datos en 90-98%. Cada estrategia aborda un aspecto específico " ++
  "del problema y puede implementarse de forma incremental."

/-- `strategy1` of `add_optimization_strategies`. -/
def strategy1Text : String :=
  "<b>Objetivo:</b> Delegar filtrado, ordenamiento y paginación al backend de JobNimbus siempre que sea posible.<br/>" ++
  " <b>Impacto:</b> Reducción de 90-95% en datos transferidos<br/>" ++
  " <b>Complejidad:</b> Media (requiere modificar JobNimbusClient)<br/>" ++
  " <b>Archivos afectados:</b> src/services/jobNimbusClient.ts, src/tools/jobs/getJobs.ts (y 15+ herramientas)"

/-- `code1` of `add_optimization_strategies`. -/
def code1Text : String :=
  "\n// ANTES (fetch-all-then-filter)\n" ++
  "const allJobs = await this.client.get(apiKey, 'jobs', \x7b size: 2000 \x7d);\n" ++
  "const filtered = allJobs.filter(j => j.date_created >= fromDate);\n\n" ++
  "// DESPUÉS (query delegation)\n" ++
  "const jobs = await this.client.get(apiKey, 'jobs', \x7b\n" ++
  "  size: 20,\n" ++
  "  filter: JSON.stringify(\x7b\n" ++
  "    must: [\x7b range: \x7b date_created: \x7b gte: fromDate \x7d \x7d \x7d]\n" ++
  "  \x7d)\n" ++
  "\x7d);\n"

/-- `strategy2` of `add_optimization_strategies`. -/
def strategy2Text : String :=
  "<b>Objetivo:</b> Seleccionar solo los campos necesarios, excluyendo JSONB pesados cuando no se requieren.<br/>" ++
  " <b>Impacto:</b> Reducción de 80-95% en tamaño de respuesta individual<br/>" ++
  " <b>Complejidad:</b> Baja (agregar parámetro fields)<br/>" ++
  " <b>Archivos afectados:</b> src/services/jobNimbusClient.ts, src/utils/fieldSelector.ts (nuevo)"

/-- `code2` of `add_optimization_strategies`. -/
def code2Text : String :=
  "\n// Implementación de field selection\n" ++
  "interface APIOptions \x7b\n" ++
  "  fields?: string[];\n" ++
  "  exclude_jsonb?: boolean;\n" ++
  "\x7d\n\n" ++
  "await this.client.get(apiKey, 'jobs', \x7b\n" ++
  "  fields: ['jnid', 'number', 'name', 'status_name', 'date_created'],\n" ++
  "  exclude_jsonb: true\n" ++
  "\x7d);\n\n" ++
  "// Reduce de 150 KB a 5 KB por job (97% reducción)\n"

/-- `strategy3` of `add_optimization_strategies`. -/
def strategy3Text : String :=
  "<b>Objetivo:</b> Forzar uso del sistema handle-based (Phase 3) en TODAS las herramientas.<br/>" ++
  " <b>Impacto:</b> Consistencia 100%, reducción 70-90% en tokens<br/>" ++
  " <b>Complejidad:</b> Baja (modificar BaseTool.execute)<br/>" ++
  " <b>Archivos afectados:</b> src/tools/baseTool.ts"

/-- `code3` of `add_optimization_strategies`. -/
def code3Text : String :=
  "\n// En BaseTool.execute()\n" ++
  "async execute(input: TInput, context: ToolContext) \x7b\n" ++
  "  // Force verbosity default\n" ++
  "  if (!input.verbosity) \x7b\n" ++
  "    input.verbosity = 'compact';\n" ++
  "  \x7d\n\n" ++
  "  const rawData = await this.executeImpl(input, context);\n\n" ++
  "  // ALWAYS wrap response\n" ++
  "  return await this.wrapResponse(rawData, input, context);\n" ++
  "\x7d\n"

/-- `additional_strategies` of `add_optimization_strategies`. -/
def additional_strategies : List String :=
  [ "<b>Estrategia 4 - HTTP Compression:</b> Agregar middleware compression() en Express para GZIP/Brotli (60-70% reducción de bandwidth). Complejidad: Muy baja (1 línea de código).",
    "<b>Estrategia 5 - Reduced Default Limits:</b> Cambiar maxIterations de 20 a 5, fetchSize de 500 a 100 (75% reducción en fetches). Complejidad: Muy baja (configuración).",
    "<b>Estrategia 6 - Smart Cache Multi-Tier:</b> Implementar cache de 3 niveles (Hot/Warm/Handle) con predictive warming. Complejidad: Alta (nueva infraestructura)." ]

/-- The blocks `add_optimization_strategies` appends; note the three code
paragraphs look up the sample style `Code`, not `CustomCode`. -/
def optimizationStrategiesBlocks (styles : StyleSheet) : Except String (List Block) := do
  let sectionS ← styles.getE "Section"
  let bodyText ← styles.getE "BodyText"
  let subsectionS ← styles.getE "Subsection"
  let codeS ← styles.getE "Code"
  return [
      Block.paragraph "ESTRATEGIAS DE OPTIMIZACIÓN" sectionS,
      Block.paragraph optIntroText bodyText,
      Block.spacer (pts 1) (pts 15),
      Block.paragraph "Estrategia 1: Query Delegation Pattern" subsectionS,
      Block.paragraph strategy1Text bodyText,
      Block.spacer (pts 1) (pts 10),
      Block.paragraph code1Text codeS,
      Block.spacer (pts 1) (pts 12),
      Block.paragraph "Estrategia 2: JSONB Field Projection" subsectionS,
      Block.paragraph strategy2Text bodyText,
      Block.spacer (pts 1) (pts 10),
      Block.paragraph code2Text codeS,
      Block.spacer (pts 1) (pts 12),
      Block.paragraph "Estrategia 3: Mandatory Phase 3 Enforcement" subsectionS,
      Block.paragraph strategy3Text bodyText,
      Block.spacer (pts 1) (pts 10),
      Block.paragraph code3Text codeS,
      Block.spacer (pts 1) (pts 12),
      Block.paragraph "Estrategias Adicionales (4-6):" subsectionS ] ++
    additional_strategies.flatMap (fun s => [Block.paragraph s bodyText, Block.spacer (pts 1) (pts 8)]) ++
    [Block.pageBreak]

/-- `add_optimization_strategies`: appends the optimization strategies
blocks. -/
def Generator.add_optimization_strategies (g : Generator) : Except String Generator :=
  (optimizationStrategiesBlocks g.styles).map fun bs => { g with story := g.story ++ bs }

/-! ## Implementation plan (`add_implementation_plan`) -/

/-- `intro` of `add_implementation_plan`. -/
def planIntroText : String :=
  "El plan de implementación está estructurado en <b>5 fases</b> a lo largo de 10 semanas, " ++
  "con entregables específicos, métricas de éxito y procedimientos de rollback para cada fase. " ++
  "La inversión total es de $30,010 inicial + $10/mes operacional."

/-- The five phases of the plan: heading, description paragraph, the
deliverable bullet paragraphs and the success-metrics paragraph, in
source order. -/
def planPhases : List (String × String × List String × String) :=
  [ ("Fase 1: Foundation (Semana 1-2)",
     "<b>Objetivo:</b> Establecer infraestructura base para optimizaciones<br/> <b>Duración:</b> 2 semanas<br/> <b>Inversión:</b> $6,000<br/> <b>Entregables:</b>",
     [ "• Query Parser & Validator con Zod",
       "• Field Selector Engine para JSONB projection",
       "• Backward Compatibility Middleware",
       "• Unit tests (>80% coverage)" ],
     "<b>Métricas de Éxito:</b> Validación de queries funcional, field selection operativo, tests pasando"),
    ("Fase 2: Optimization Layer (Semana 3-4)",
     "<b>Objetivo:</b> Implementar compresión, transformación y cache<br/> <b>Duración:</b> 2 semanas<br/> <b>Inversión:</b> $6,000<br/> <b>Entregables:</b>",
     [ "• Data Transformer con 4 niveles de verbosity",
       "• Compression Middleware (GZIP + Brotli)",
       "• Smart Cache Manager (3 tiers)",
       "• Integration tests" ],
     "<b>Métricas de Éxito:</b> 60% reducción en response size, cache hit rate >50%, compresión funcional"),
    ("Fase 3: Intelligence Layer (Semana 5-6)",
     "<b>Objetivo:</b> Agregar inteligencia predictiva al cache<br/> <b>Duración:</b> 2 semanas<br/> <b>Inversión:</b> $6,000<br/> <b>Entregables:</b>",
     [ "• Access Pattern Analyzer",
       "• Predictive Cache Warming (ML-based)",
       "• Dynamic TTL Manager",
       "• Performance benchmarks" ],
     "<b>Métricas de Éxito:</b> Cache hit rate >70%, predicción >50% accuracy, TTL auto-tuning funcional"),
    ("Fase 4: Full Migration (Semana 7-8)",
     "<b>Objetivo:</b> Migrar todas las 88 herramientas a nuevo sistema<br/> <b>Duración:</b> 2 semanas<br/> <b>Inversión:</b> $8,000<br/> <b>Entregables:</b>",
     [ "• 88 herramientas migradas a Phase 3",
       "• Documentación actualizada (README, API docs)",
       "• E2E testing suite",
       "• Staging deployment" ],
     "<b>Métricas de Éxito:</b> 100% herramientas migradas, E2E tests >95% passing, staging estable"),
    ("Fase 5: Cleanup & Launch (Semana 9-10)",
     "<b>Objetivo:</b> Limpiar código legacy y lanzar a producción<br/> <b>Duración:</b> 2 semanas<br/> <b>Inversión:</b> $4,000<br/> <b>Entregables:</b>",
     [ "• Código legacy removido",
       "• Performance tuning final",
       "• Production deployment",
       "• Monitoring dashboard configurado" ],
     "<b>Métricas de Éxito:</b> Production estable, métricas objetivo alcanzadas, zero critical bugs") ]

/-- `timeline_data` of `add_implementation_plan`. -/
def timeline_data : List (List String) :=
  [ ["Fase", "Semanas", "Inversión", "Entregables Clave"],
    ["1. Foundation", "1-2", "$6,000", "Query Parser, Field Selector"],
    ["2. Optimization", "3-4", "$6,000", "Compression, Cache, Transformer"],
    ["3. Intelligence", "5-6", "$6,000", "Predictive Cache, Dynamic TTL"],
    ["4. Migration", "7-8", "$8,000", "88 tools migrated, E2E tests"],
    ["5. Launch", "9-10", "$4,000", "Production deployment, monitoring"],
    ["TOTAL", "10 semanas", "$30,000", "+ $10/mes operacional"] ]

/-- The `TableStyle` of the timeline table. -/
def timeline_table_style : List TableCmd :=
  [ ⟨"BACKGROUND", (0, 0), (-1, 0), [.color (HexColor "#1e3a8a")]⟩,
    ⟨"TEXTCOLOR", (0, 0), (-1, 0), [.color white]⟩,
    ⟨"ALIGN", (0, 0), (-1, -1), [.str "CENTER"]⟩,
    ⟨"FONTNAME", (0, 0), (-1, 0), [.str "Helvetica-Bold"]⟩,
    ⟨"FONTSIZE", (0, 0), (-1, 0), [.num (pts 9)]⟩,
    ⟨"BOTTOMPADDING", (0, 0), (-1, 0), [.num (pts 8)]⟩,
    ⟨"BACKGROUND", (0, 1), (0, -2), [.color (HexColor "#f3f4f6")]⟩,
    ⟨"BACKGROUND", (-1, -1), (-1, -1), [.color (HexColor "#dcfce7")]⟩,
    ⟨"GRID", (0, 0), (-1, -1), [.num (pts 1), .color (HexColor "#d1d5db")]⟩,
    ⟨"FONTNAME", (0, 1), (-1, -1), [.str "Helvetica"]⟩,
    ⟨"FONTSIZE", (0, 1), (-1, -1), [.num (pts 8)]⟩,
    ⟨"FONTNAME", (-1, -1), (-1, -1), [.str "Helvetica-Bold"]⟩ ]

/-- The blocks one phase of `add_implementation_plan` appends: heading,
description, the deliverables loop (paragraphs only), a spacer, the
success-metrics paragraph with the `Metric` style, a spacer. -/
def phaseBlocks (subsectionS bodyText metric : ParagraphStyle)
    (ph : String × String × List String × String) : List Block :=
  [ Block.paragraph ph.1 subsectionS,
    Block.paragraph ph.2.1 bodyText ] ++
  ph.2.2.1.map (fun item => Block.paragraph item bodyText) ++
  [ Block.spacer (pts 1) (pts 8),
    Block.paragraph ph.2.2.2 metric,
    Block.spacer (pts 1) (pts 12) ]

/-- The blocks `add_implementation_plan` appends. -/
def implementationPlanBlocks (styles : StyleSheet) : Except String (List Block) := do
  let sectionS ← styles.getE "Section"
  let bodyText ← styles.getE "BodyText"
  let subsectionS ← styles.getE "Subsection"
  let metric ← styles.getE "Metric"
  return [
      Block.paragraph "PLAN DE IMPLEMENTACIÓN" sectionS,
      Block.paragraph planIntroText bodyText,
      Block.spacer (pts 1) (pts 15) ] ++
    planPhases.flatMap (phaseBlocks subsectionS bodyText metric) ++
    [ Block.table timeline_data [12 * inch / 10, 1 * inch, 1 * inch, 23 * inch / 10] timeline_table_style,
      Block.pageBreak ]

/-- `add_implementation_plan`: appends the implementation plan blocks. -/
def Generator.add_implementation_plan (g : Generator) : Except String Generator :=
  (implementationPlanBlocks g.styles).map fun bs => { g with story := g.story ++ bs }

/-! ## ROI analysis (`add_roi_analysis`) -/

/-- `intro` of `add_roi_analysis`. -/
def roiIntroText : String :=
  "El análisis de ROI considera tres escenarios de deployment (pequeño, mediano, grande) " ++
  "con proyecciones a 1, 3 y 5 años. El payback period es de <b>0.82 meses</b> en deployment " ++
  "mediano, con ROI anual de <b>1,458%</b>."

/-- `costs_data` of `add_roi_analysis`. -/
def costs_data : List (List String) :=
  [ ["Deployment", "Usuarios", "Antes", "Después", "Ahorro/Mes", "Ahorro/Año"],
    ["Pequeño", "10", "$8,100", "$810", "$7,290", "$87,480"],
    ["Mediano", "50", "$40,500", "$4,050", "$36,450", "$437,400"],
    ["Grande", "200", "$162,000", "$16,200", "$145,800", "$1,749,600"] ]

/-- The `TableStyle` of the costs table. -/
def costs_table_style : List TableCmd :=
  [ ⟨"BACKGROUND", (0, 0), (-1, 0), [.color (HexColor "#059669")]⟩,
    ⟨"TEXTCOLOR", (0, 0), (-1, 0), [.color white]⟩,
    ⟨"ALIGN", (0, 0), (-1, -1), [.str "CENTER"]⟩,
    ⟨"FONTNAME", (0, 0), (-1, 0), [.str "Helvetica-Bold"]⟩,
    ⟨"FONTSIZE", (0, 0), (-1, 0), [.num (pts 9)]⟩,
    ⟨"BOTTOMPADDING", (0, 0), (-1, 0), [.num (pts 8)]⟩,
    ⟨"BACKGROUND", (0, 1), (-1, -1), [.color (HexColor "#f0fdf4")]⟩,
    ⟨"GRID", (0, 0), (-1, -1), [.num (pts 1), .color (HexColor "#bbf7d0")]⟩,
    ⟨"FONTNAME", (0, 1), (-1, -1), [.str "Helvetica"]⟩,
    ⟨"FONTSIZE", (0, 1), (-1, -1), [.num (pts 8)]⟩,
    ⟨"TEXTCOLOR", (4, 1), (5, -1), [.color (HexColor "#059669")]⟩,
    ⟨"FONTNAME", (4, 1), (5, -1), [.str "Helvetica-Bold"]⟩ ]

/-- `roi_data` of `add_roi_analysis`. -/
def roi_data : List (List String) :=
  [ ["Período", "Inversión", "Ahorro", "ROI", "Payback"],
    ["Año 1", "$30,010", "$437,400", "1,458%", "0.82 meses"],
    ["Año 3", "$30,370", "$1,312,200", "4,321%", "-"],
    ["Año 5", "$30,730", "$2,187,000", "7,115%", "-"] ]

/-- The `TableStyle` of the ROI table. -/
def roi_table_style : List TableCmd :=
  [ ⟨"BACKGROUND", (0, 0), (-1, 0), [.color (HexColor "#1e3a8a")]⟩,
    ⟨"TEXTCOLOR", (0, 0), (-1, 0), [.color white]⟩,
    ⟨"ALIGN", (0, 0), (-1, -1), [.str "CENTER"]⟩,
    ⟨"FONTNAME", (0, 0), (-1, 0), [.str "Helvetica-Bold"]⟩,
    ⟨"FONTSIZE", (0, 0), (-1, 0), [.num (pts 9)]⟩,
    ⟨"BOTTOMPADDING", (0, 0), (-1, 0), [.num (pts 8)]⟩,
    ⟨"BACKGROUND", (0, 1), (-1, -1), [.color (HexColor "#eff6ff")]⟩,
    ⟨"GRID", (0, 0), (-1, -1), [.num (pts 1), .color (HexColor "#bfdbfe")]⟩,
    ⟨"FONTNAME", (0, 1), (-1, -1), [.str "Helvetica"]⟩,
    ⟨"FONTSIZE", (0, 1), (-1, -1), [.num (pts 8)]⟩ ]

/-- `intangible_benefits` of `add_roi_analysis`. -/
def intangible_benefits : List String :=
  [ "<b>Experiencia de Usuario Mejorada:</b> Reducción de 93% en latencia P50 (520ms → 38ms) mejora significativamente la UX.",
    "<b>Escalabilidad:</b> Throughput aumenta 3x (140 req/s → 426 req/s), permitiendo crecer sin infraestructura adicional.",
    "<b>Calidad de Respuestas:</b> Menos tokens desperdiciados = más contexto útil = respuestas más precisas del AI.",
    "<b>Competitividad:</b> Sistema enterprise-grade con performance comparable a soluciones comerciales de $100k+." ]

/-- The blocks `add_roi_analysis` appends. -/
def roiAnalysisBlocks (styles : StyleSheet) : Except String (List Block) := do
  let sectionS ← styles.getE "Section"
  let bodyText ← styles.getE "BodyText"
  let subsectionS ← styles.getE "Subsection"
  return [
      Block.paragraph "ANÁLISIS DE ROI Y MÉTRICAS FINANCIERAS" sectionS,
      Block.paragraph roiIntroText bodyText,
      Block.spacer (pts 1) (pts 15),
      Block.paragraph "Costos Operacionales Mensuales:" subsectionS,
      Block.table costs_data [12 * inch / 10, 9 * inch / 10, 1 * inch, 1 * inch, 11 * inch / 10, 11 * inch / 10] costs_table_style,
      Block.spacer (pts 1) (pts 15),
      Block.paragraph "ROI por Escenario (Deployment Mediano):" subsectionS,
      Block.table roi_data [12 * inch / 10, 12 * inch / 10, 12 * inch / 10, 1 * inch, 12 * inch / 10] roi_table_style,
      Block.spacer (pts 1) (pts 15),
      Block.paragraph "Beneficios Intangibles:" subsectionS ] ++
    intangible_benefits.flatMap (fun b => [Block.paragraph b bodyText, Block.spacer (pts 1) (pts 8)]) ++
    [Block.pageBreak]

/-- `add_roi_analysis`: appends the ROI analysis blocks. -/
def Generator.add_roi_analysis (g : Generator) : Except String Generator :=
  (roiAnalysisBlocks g.styles).map fun bs => { g with story := g.story ++ bs }

/-! ## Conclusions (`add_conclusions`) -/

/-- `conclusions` of `add_conclusions`. -/
def conclusionsList : List String :=
  [ "<b>1. Problema Crítico Confirmado:</b> El servidor transmite 95-99% más datos de los necesarios, consumiendo 10,000-1,250,000 tokens por consulta y saturando el contexto del chat.",
    "<b>2. Solución Enterprise-Grade Diseñada:</b> Arquitectura de 6 estrategias complementarias que reducen transmisión en 90-98% sin pérdida de funcionalidad.",
    "<b>3. ROI Excepcional:</b> Inversión de $30,010 con payback en 0.82 meses y ROI anual de 1,458% en deployment mediano.",
    "<b>4. Implementación Gradual:</b> Plan de 10 semanas con 5 fases, rollback procedures, y métricas de éxito por fase.",
    "<b>5. Impacto Cuantificado:</b> Reducción del 90% en tokens, 93% en latencia, 3x en throughput, y $437,400/año en ahorros." ]

/-- `next_steps` of `add_conclusions`. -/
def next_steps : List String :=
  [ "<b>Semana 1 (Inmediato):</b> Implementar compression middleware (1 línea de código) + reducir límites default (maxIterations: 20→5). Ahorro inmediato: 60-75%.",
    "<b>Semana 2-3:</b> Implementar Query Delegation Pattern para top 5 herramientas más costosas (get_revenue_report, get_consolidated_financials, get_attachments, analyze_insurance_pipeline, get_job_analytics).",
    "<b>Semana 4-6:</b> Implementar JSONB Field Projection + forzar verbosity='compact' en todas las herramientas.",
    "<b>Mes 2-3:</b> Ejecutar plan completo de 10 semanas con todas las 5 fases." ]

/-- `risks` of `add_conclusions`. -/
def risksList : List String :=
  [ "<b>Riesgo 1 - Breaking Changes:</b> Mitigación: Backward compatibility middleware + opt-in gradual.",
    "<b>Riesgo 2 - Complejidad Técnica:</b> Mitigación: Plan por fases con rollback procedures.",
    "<b>Riesgo 3 - Testing Exhaustivo:</b> Mitigación: Unit tests >80% coverage + E2E tests + staging.",
    "<b>Riesgo 4 - Resistencia al Cambio:</b> Mitigación: Documentación clara + ejemplos de código + capacitación." ]

/-- `final_note` of `add_conclusions`. -/
def finalNoteText : String :=
  "<para alignment=\"center\"> <b>Este reporte técnico ha sido generado mediante análisis profundo con 4 agentes especializados " ++
  "(Architect Review, Performance Engineer, Database Optimizer, Backend Architect) utilizando " ++
  "AI insights y metodologías enterprise-grade.</b> </para>"

/-- The blocks `add_conclusions` appends (no trailing page break). -/
def conclusionsBlocks (styles : StyleSheet) : Except String (List Block) := do
  let sectionS ← styles.getE "Section"
  let subsectionS ← styles.getE "Subsection"
  let bodyText ← styles.getE "BodyText"
  return [
      Block.paragraph "CONCLUSIONES Y PRÓXIMOS PASOS" sectionS,
      Block.paragraph "Conclusiones Principales:" subsectionS ] ++
    conclusionsList.flatMap (fun c => [Block.paragraph c bodyText, Block.spacer (pts 1) (pts 10)]) ++
    [ Block.spacer (pts 1) (pts 15),
      Block.paragraph "Próximos Pasos Recomendados:" subsectionS ] ++
    next_steps.flatMap (fun s => [Block.paragraph s bodyText, Block.spacer (pts 1) (pts 8)]) ++
    [ Block.spacer (pts 1) (pts 15),
      Block.paragraph "Riesgos Identificados y Mitigación:" subsectionS ] ++
    risksList.flatMap (fun r => [Block.paragraph r bodyText, Block.spacer (pts 1) (pts 8)]) ++
    [ Block.spacer (pts 1) (pts 20),
      Block.paragraph finalNoteText bodyText ]

/-- `add_conclusions`: appends the conclusions blocks. -/
def Generator.add_conclusions (g : Generator) : Except String Generator :=
  (conclusionsBlocks g.styles).map fun bs => { g with story := g.story ++ bs }

/-! ## Rendering (`generate`) -/

/-- Modelled from the spec: the artifact the rendering collaborator
produces — a paginated document determined by the page-geometry
configuration and the ordered block sequence handed to it (the
collaborator's pagination is external; its structural input is the whole
artifact content). -/
structure Artifact where
  doc : DocTemplate
  story : List Block
deriving DecidableEq, Repr

/-- Modelled from the spec: the rendering collaborator
(`SimpleDocTemplate.build`), per the collaborator contract a
deterministic function of the page geometry and the ordered block
sequence it is handed; in particular the model has it read, not mutate,
the assembler's story (what the real external library does to the list
it is passed is outside the repository's code). -/
def buildPDF (doc : DocTemplate) (story : List Block) : Except String Artifact :=
  .ok { doc := doc, story := story }

/-- `generate` with the rendering collaborator abstracted: appends the
seven sections in source order, then hands the accumulated story to the
collaborator exactly once. The `print` logging and the final
`os.path.getsize` call are outside the model; the returned artifact
stands for the written file. -/
def Generator.generateWith
    (build : DocTemplate → List Block → Except String Artifact)
    (g : Generator) (today : String) : Except String (Generator × Artifact) := do
  let g ← g.add_cover_page today
  let g ← g.add_executive_summary
  let g ← g.add_technical_analysis
  let g ← g.add_optimization_strategies
  let g ← g.add_implementation_plan
  let g ← g.add_roi_analysis
  let g ← g.add_conclusions
  let art ← build g.doc g.story
  return (g, art)

/-- `generate`: the seven section builders in source order, then
`self.doc.build(self.story)`. -/
def Generator.generate (g : Generator) (today : String) :
    Except String (Generator × Artifact) :=
  g.generateWith buildPDF today

/-- The `__main__` entry point: construct the generator with the default
filename and call `generate`; `today` is the formatted current date the
cover page reads from the system clock. -/
def mainRun (today : String) : Except String (Generator × Artifact) :=
  (init defaultFilename).generate today

/-! ## Derived notions the properties are stated with -/

/-- The blocks a call appended: the new story with the old story's length
dropped from the front. -/
def appendedOf (g : Generator) (r : Except String Generator) :
    Except String (List Block) :=
  r.map fun g' => g'.story.drop g.story.length

/-- The seven section block lists concatenated in `generate`'s order. -/
def sectionsBlocks (ss : StyleSheet) (today : String) : Except String (List Block) := do
  let b1 ← coverPageBlocks ss today
  let b2 ← executiveSummaryBlocks ss
  let b3 ← technicalAnalysisBlocks ss
  let b4 ← optimizationStrategiesBlocks ss
  let b5 ← implementationPlanBlocks ss
  let b6 ← roiAnalysisBlocks ss
  let b7 ← conclusionsBlocks ss
  return b1 ++ b2 ++ b3 ++ b4 ++ b5 ++ b6 ++ b7

/-- The blocks each of the seven section-builder methods appends to `g`,
in the documented section order. -/
def sectionAppends (g : Generator) (today : String) : List (Except String (List Block)) :=
  [ appendedOf g (g.add_cover_page today),
    appendedOf g g.add_executive_summary,
    appendedOf g g.add_technical_analysis,
    appendedOf g g.add_optimization_strategies,
    appendedOf g g.add_implementation_plan,
    appendedOf g g.add_roi_analysis,
    appendedOf g g.add_conclusions ]

/-- `generate`'s contract: each of the seven section builders succeeds,
their blocks are appended in the fixed order, and the whole run is the
rendering collaborator applied exactly once to the accumulated story —
so the run fails exactly when the collaborator does. -/
def generateSpec (build : DocTemplate → List Block → Except String Artifact)
    (g : Generator) (today : String) : Prop :=
  ∃ b1 b2 b3 b4 b5 b6 b7 : List Block,
    coverPageBlocks g.styles today = Except.ok b1 ∧
    executiveSummaryBlocks g.styles = Except.ok b2 ∧
    technicalAnalysisBlocks g.styles = Except.ok b3 ∧
    optimizationStrategiesBlocks g.styles = Except.ok b4 ∧
    implementationPlanBlocks g.styles = Except.ok b5 ∧
    roiAnalysisBlocks g.styles = Except.ok b6 ∧
    conclusionsBlocks g.styles = Except.ok b7 ∧
    g.generateWith build today =
      (build g.doc (g.story ++ b1 ++ b2 ++ b3 ++ b4 ++ b5 ++ b6 ++ b7)).map
        (fun art => ({ g with story := g.story ++ b1 ++ b2 ++ b3 ++ b4 ++ b5 ++ b6 ++ b7 }, art))

/-- Every registry style a block carries was obtained by name lookup in
`ss` (only paragraphs carry one; spacers, tables and page breaks none). -/
def usesRegistry (ss : StyleSheet) (b : Block) : Prop :=
  ∀ st ∈ b.styles, ss.get st.name = some st

instance (ss : StyleSheet) (b : Block) : Decidable (usesRegistry ss b) :=
  List.decidableBAll _ _

/-- A section step leaves the registry alone and appends only blocks whose
styles are name lookups in the registry fixed at initialization. -/
def sectionUses (s : Generator → Except String Generator) : Prop :=
  ∀ g g', g.styles = reportStyles → s g = Except.ok g' →
    g'.styles = g.styles ∧ ∀ b ∈ g'.story.drop g.story.length, usesRegistry g.styles b

/-- A section step is append-only and order-preserving: on success it
appends exactly its builder's blocks, the story length grows by their
count, and every previously appended block keeps its position. -/
def appendsSection (F : StyleSheet → Except String (List Block))
    (s : Generator → Except String Generator) : Prop :=
  ∀ g g', s g = Except.ok g' →
    ∃ bs, F g.styles = Except.ok bs ∧ g'.story = g.story ++ bs ∧
      g'.story.length = g.story.length + bs.length ∧
      ∀ i, i < g.story.length → g'.story[i]? = g.story[i]?

/-- A section step's only effect is growing the story: filename, document
configuration and style registry are untouched, and the old story is an
initial segment of the new one. -/
def framePreserving (s : Generator → Except String Generator) : Prop :=
  ∀ g g', s g = Except.ok g' →
    g'.filename = g.filename ∧ g'.doc = g.doc ∧ g'.styles = g.styles ∧
    ∃ t, g'.story = g.story ++ t

/-- The row data of a table block. -/
def tableData? : Block → Option (List (List String))
  | .table d _ _ => some d
  | _ => none

/-- The registry style name a paragraph block was built with. -/
def styleName? : Block → Option String
  | .paragraph _ st => some st.name
  | _ => none

/-- The names `_setup_custom_styles` registers, in registration order. -/
def customStyleNames : List String :=
  [ "CustomTitle", "CustomSubtitle", "Section", "Subsection", "CustomCode",
    "Highlight", "Metric" ]

/-- The seven registered custom styles, in registration order. -/
def customStyles : List ParagraphStyle :=
  [ customTitleStyle, customSubtitleStyle, sectionStyle, subsectionStyle,
    customCodeStyle, highlightStyle, metricStyle ]

/-- The style names the section builders reference, in order of first
use: the seven text styles plus the built-in sample style `Code` (the
registered `CustomCode` is never referenced). -/
def referencedStyleNames : List String :=
  [ "CustomTitle", "CustomSubtitle", "BodyText", "Section", "Subsection",
    "Highlight", "Code", "Metric" ]

/-! ## General facts about the embedding -/

/-- Registration of the seven custom styles succeeds and yields exactly
`reportStyles`. -/
theorem setup_ok : setup_custom_styles sampleStyleSheet = Except.ok reportStyles := rfl

/-- The constructor never raises: `initE` agrees with the total `init`. -/
theorem initE_eq (f : String) : initE f = Except.ok (init f) := rfl

/-- A section step of the shape every `add_*` method has: it returns `ok`
exactly when its block list does, and then only appends those blocks. -/
theorem section_step_ok (F : StyleSheet → Except String (List Block))
    (s : Generator → Except String Generator)
    (hstep : ∀ g, s g = (F g.styles).map fun bs => { g with story := g.story ++ bs })
    (g g' : Generator) :
    s g = Except.ok g' ↔
      ∃ bs, F g.styles = Except.ok bs ∧ g' = { g with story := g.story ++ bs } := by
  rw [hstep]
  cases hF : F g.styles with
  | error e => simp [Except.map]
  | ok bs =>
      simp only [Except.map, Except.ok.injEq]
      constructor
      · intro h
        exact ⟨bs, rfl, h.symm⟩
      · rintro ⟨bs', hbs', rfl⟩
        cases hbs'
        rfl

/-- Stripping the old story from a section step's result recovers the
section's block list. -/
theorem appendedOf_map (g : Generator) (r : Except String (List Block)) :
    appendedOf g (r.map fun bs => { g with story := g.story ++ bs }) = r := by
  cases r with
  | error e => rfl
  | ok bs => simp [appendedOf, Except.map, List.drop_left]

/-- `generateWith` factored: compute the seven sections' blocks (failing
if one does), append them all, hand the result to the collaborator once. -/
theorem generateWith_eq (build : DocTemplate → List Block → Except String Artifact)
    (g : Generator) (today : String) :
    g.generateWith build today = (sectionsBlocks g.styles today).bind fun bs =>
      (build g.doc (g.story ++ bs)).map fun art =>
        ({ g with story := g.story ++ bs }, art) := by
  unfold Generator.generateWith sectionsBlocks Generator.add_cover_page
    Generator.add_executive_summary Generator.add_technical_analysis
    Generator.add_optimization_strategies Generator.add_implementation_plan
    Generator.add_roi_analysis Generator.add_conclusions
  cases h1 : coverPageBlocks g.styles today with
  | error e => simp [h1, Except.map, Except.bind, bind]
  | ok b1 =>
  cases h2 : executiveSummaryBlocks g.styles with
  | error e => simp [h1, h2, Except.map, Except.bind, bind]
  | ok b2 =>
  cases h3 : technicalAnalysisBlocks g.styles with
  | error e => simp [h1, h2, h3, Except.map, Except.bind, bind]
  | ok b3 =>
  cases h4 : optimizationStrategiesBlocks g.styles with
  | error e => simp [h1, h2, h3, h4, Except.map, Except.bind, bind]
  | ok b4 =>
  cases h5 : implementationPlanBlocks g.styles with
  | error e => simp [h1, h2, h3, h4, h5, Except.map, Except.bind, bind]
  | ok b5 =>
  cases h6 : roiAnalysisBlocks g.styles with
  | error e => simp [h1, h2, h3, h4, h5, h6, Except.map, Except.bind, bind]
  | ok b6 =>
  cases h7 : conclusionsBlocks g.styles with
  | error e => simp [h1, h2, h3, h4, h5, h6, h7, Except.map, Except.bind, bind]
  | ok b7 =>
  simp only [h1, h2, h3, h4, h5, h6, h7, Except.map, Except.bind, bind,
    List.append_assoc, pure, Except.pure]

/-- Any step of the `add_*` shape is append-only and order-preserving. -/
theorem appendsSection_of (F : StyleSheet → Except String (List Block))
    (s : Generator → Except String Generator)
    (hstep : ∀ g, s g = (F g.styles).map fun bs => { g with story := g.story ++ bs }) :
    appendsSection F s := by
  intro g g' h
  rw [section_step_ok F s hstep] at h
  obtain ⟨bs, hF, rfl⟩ := h
  refine ⟨bs, hF, rfl, by simp, fun i hi => ?_⟩
  rw [List.getElem?_append, if_pos hi]

/-- Any step of the `add_*` shape touches nothing but the story. -/
theorem framePreserving_of (F : StyleSheet → Except String (List Block))
    (s : Generator → Except String Generator)
    (hstep : ∀ g, s g = (F g.styles).map fun bs => { g with story := g.story ++ bs }) :
    framePreserving s := by
  intro g g' h
  rw [section_step_ok F s hstep] at h
  obtain ⟨bs, _, rfl⟩ := h
  exact ⟨rfl, rfl, rfl, bs, rfl⟩

/-- Any step of the `add_*` shape whose blocks, on the initialization
registry, all carry looked-up styles, satisfies `sectionUses`. -/
theorem sectionUses_of (F : StyleSheet → Except String (List Block))
    (s : Generator → Except String Generator)
    (hstep : ∀ g, s g = (F g.styles).map fun bs => { g with story := g.story ++ bs })
    (hok : ∀ bs, F reportStyles = Except.ok bs → ∀ b ∈ bs, usesRegistry reportStyles b) :
    sectionUses s := by
  intro g g' hs h
  rw [section_step_ok F s hstep] at h
  obtain ⟨bs, hF, rfl⟩ := h
  rw [hs] at hF ⊢
  exact ⟨rfl, by simpa [List.drop_left] using hok bs hF⟩

/-- Rendering leaves the style registry untouched. -/
theorem generate_preserves_styles (g : Generator) (today : String)
    (g' : Generator) (a : Artifact) (h : g.generate today = Except.ok (g', a)) :
    g'.styles = g.styles := by
  rw [Generator.generate, generateWith_eq] at h
  cases hseq : sectionsBlocks g.styles today with
  | error e =>
      rw [hseq] at h
      simp [Except.bind] at h
  | ok bs =>
      rw [hseq] at h
      simp only [Except.bind, buildPDF, Except.map, Except.ok.injEq, Prod.mk.injEq] at h
      obtain ⟨h1, h2⟩ := h
      subst h1
      subst h2
      rfl

/-! ## The claims -/

/-- Claim C1, counterexample: `add_cover_page` is not a pure function of
the style registry alone — on the same assembler (hence the same
registry), runs on two different dates append different block sequences,
because the cover info paragraph embeds `datetime.now()`. -/
theorem claimC1_counterexample :
    appendedOf (init defaultFilename)
        ((init defaultFilename).add_cover_page "01 de enero, 2025") ≠
      appendedOf (init defaultFilename)
        ((init defaultFilename).add_cover_page "02 de enero, 2025") := by
  decide

/-- Claim C1, amended: six of the seven section builders are pure
functions of the style registry, and `add_cover_page` is a pure function
of the registry and the current date: on any two assemblers with the same
registry (and, for the cover, the same date) every section-builder method
appends identical block sequences, whatever the filename, document
configuration and prior story. -/
theorem claimC1_theorem (g1 g2 : Generator) (today : String)
    (h : g1.styles = g2.styles) :
    sectionAppends g1 today = sectionAppends g2 today := by
  simp only [sectionAppends, Generator.add_cover_page, Generator.add_executive_summary,
    Generator.add_technical_analysis, Generator.add_optimization_strategies,
    Generator.add_implementation_plan, Generator.add_roi_analysis,
    Generator.add_conclusions, appendedOf_map]
  rw [h]

/-- Claim C1, witness: two assemblers differing in filename, document
configuration and story but sharing the registry append identical block
sequences on the same date. -/
theorem claimC1_witness :
    sectionAppends
        (Generator.mk "other.pdf" (mkDocTemplate "other.pdf") reportStyles
          [Block.pageBreak]) "12 de octubre, 2025" =
      sectionAppends (init defaultFilename) "12 de octubre, 2025" :=
  claimC1_theorem _ _ "12 de octubre, 2025" rfl

set_option maxHeartbeats 4000000 in
set_option maxRecDepth 20000 in
/-- Claim C2, counterexample: a second `generate()` on an already-rendered
assembler is neither rejected nor does it produce a structurally identical
artifact — both calls succeed and the artifacts differ. -/
theorem claimC2_counterexample :
    ∃ g1 a1 g2 a2,
      (init defaultFilename).generate "12 de octubre, 2025" = Except.ok (g1, a1) ∧
      g1.generate "12 de octubre, 2025" = Except.ok (g2, a2) ∧ a1 ≠ a2 := by
  refine ⟨_, _, _, _, rfl, rfl, fun h => ?_⟩
  exact absurd (congrArg (fun a => a.story.length) h) (by decide)

set_option maxHeartbeats 8000000 in
set_option maxRecDepth 20000 in
/-- Claim C2, amended: a second `generate()` after a successful one is not
rejected and silently produces a different artifact: each call re-appends
all seven sections to the surviving story, so the story rendered by the
second call is the first artifact's story followed by a second copy of
itself. -/
theorem claimC2_theorem (f today : String) :
    ∃ g1 a1 g2 a2,
      (init f).generate today = Except.ok (g1, a1) ∧
      g1.generate today = Except.ok (g2, a2) ∧
      a2.story = a1.story ++ a1.story ∧ a1 ≠ a2 := by
  refine ⟨_, _, _, _, rfl, rfl, rfl, fun h => ?_⟩
  have hl := congrArg (fun a => a.story.length) h
  norm_num at hl

set_option maxHeartbeats 1000000 in
/-- Claim C3: `generate` invokes the seven section builders in the fixed
order cover page, executive summary, technical analysis, optimization
strategies, implementation plan, ROI analysis, conclusions, appends their
blocks in that order, and hands the accumulated story to the rendering
collaborator exactly once, afterwards; the run's result is the
collaborator's, so it fails exactly when the collaborator fails. -/
theorem claimC3_theorem (build : DocTemplate → List Block → Except String Artifact)
    (g : Generator) (today : String) (h : g.styles = reportStyles) :
    generateSpec build g today := by
  rw [generateSpec, h]
  refine ⟨_, _, _, _, _, _, _, rfl, rfl, rfl, rfl, rfl, rfl, rfl, ?_⟩
  rw [generateWith_eq, h]
  simp only [List.append_assoc]
  rfl

/-- Claim C3, witness: the contract instantiated on the entry point's
assembler and the modelled collaborator. -/
theorem claimC3_witness :
    generateSpec buildPDF (init defaultFilename) "12 de octubre, 2025" :=
  claimC3_theorem buildPDF (init defaultFilename) "12 de octubre, 2025" rfl

/-- Claim C4: every section-builder invocation appends exactly its
builder's blocks: the story length grows by the section's block count and
every previously appended block keeps its position, for each of the seven
methods. -/
theorem claimC4_theorem (today : String) :
    appendsSection (fun ss => coverPageBlocks ss today) (fun g => g.add_cover_page today) ∧
    appendsSection executiveSummaryBlocks Generator.add_executive_summary ∧
    appendsSection technicalAnalysisBlocks Generator.add_technical_analysis ∧
    appendsSection optimizationStrategiesBlocks Generator.add_optimization_strategies ∧
    appendsSection implementationPlanBlocks Generator.add_implementation_plan ∧
    appendsSection roiAnalysisBlocks Generator.add_roi_analysis ∧
    appendsSection conclusionsBlocks Generator.add_conclusions :=
  ⟨appendsSection_of _ _ fun _ => rfl, appendsSection_of _ _ fun _ => rfl,
   appendsSection_of _ _ fun _ => rfl, appendsSection_of _ _ fun _ => rfl,
   appendsSection_of _ _ fun _ => rfl, appendsSection_of _ _ fun _ => rfl,
   appendsSection_of _ _ fun _ => rfl⟩

/-- Claim C5: for every output path the constructor registers the full
style set (never raising) and yields an assembler with an empty story on
which every custom style lookup succeeds. -/
theorem claimC5_theorem (f : String) :
    initE f = Except.ok (init f) ∧ (init f).story = [] ∧
    (customStyleNames.all fun n => ((init f).styles.get n).isSome) = true :=
  ⟨rfl, rfl, rfl⟩

/-- Claim C6: the style registry is immutable after initialization — no
section builder and no `generate` run touches it — and every registry
style carried by an appended block is the result of a name lookup in the
registry fixed at initialization. -/
theorem claimC6_theorem (today : String) :
    sectionUses (fun g => g.add_cover_page today) ∧
    sectionUses Generator.add_executive_summary ∧
    sectionUses Generator.add_technical_analysis ∧
    sectionUses Generator.add_optimization_strategies ∧
    sectionUses Generator.add_implementation_plan ∧
    sectionUses Generator.add_roi_analysis ∧
    sectionUses Generator.add_conclusions ∧
    ∀ (g : Generator) (t : String) (g' : Generator) (a : Artifact),
      g.generate t = Except.ok (g', a) → g'.styles = g.styles := by
  refine ⟨?_, ?_, ?_, ?_, ?_, ?_, ?_, generate_preserves_styles⟩
  · exact sectionUses_of (fun ss => coverPageBlocks ss today) (fun g => g.add_cover_page today)
      (fun _ => rfl) fun bs hF => by
        injection hF with hbs
        rw [← hbs]
        exact of_decide_eq_true rfl
  · exact sectionUses_of executiveSummaryBlocks Generator.add_executive_summary
      (fun _ => rfl) fun bs hF => by
        injection hF with hbs
        rw [← hbs]
        exact of_decide_eq_true rfl
  · exact sectionUses_of technicalAnalysisBlocks Generator.add_technical_analysis
      (fun _ => rfl) fun bs hF => by
        injection hF with hbs
        rw [← hbs]
        exact of_decide_eq_true rfl
  · exact sectionUses_of optimizationStrategiesBlocks Generator.add_optimization_strategies
      (fun _ => rfl) fun bs hF => by
        injection hF with hbs
        rw [← hbs]
        exact of_decide_eq_true rfl
  · exact sectionUses_of implementationPlanBlocks Generator.add_implementation_plan
      (fun _ => rfl) fun bs hF => by
        injection hF with hbs
        rw [← hbs]
        exact of_decide_eq_true rfl
  · exact sectionUses_of roiAnalysisBlocks Generator.add_roi_analysis
      (fun _ => rfl) fun bs hF => by
        injection hF with hbs
        rw [← hbs]
        exact of_decide_eq_true rfl
  · exact sectionUses_of conclusionsBlocks Generator.add_conclusions
      (fun _ => rfl) fun bs hF => by
        injection hF with hbs
        rw [← hbs]
        exact of_decide_eq_true rfl

set_option maxHeartbeats 4000000 in
set_option maxRecDepth 20000 in
/-- Claim C7: no table drops a row — the run succeeds and the tables in
the rendered story are exactly the seven declared row lists, whose row
counts are their declared header-plus-data counts (the cover summary
table has 1 header plus 6 data rows, and so on). -/
theorem claimC7_theorem (f today : String) :
    ∃ g a, (init f).generate today = Except.ok (g, a) ∧
      a.story.filterMap tableData? =
        [ summary_data, impact_data, stack_data, scenarios_data,
          timeline_data, costs_data, roi_data ] ∧
      (a.story.filterMap tableData?).map List.length = [7, 8, 9, 6, 7, 4, 4] := by
  exact ⟨_, _, rfl, rfl, rfl⟩

/-- Claim C9: every section builder's only effect on the assembler is to
grow the story: filename, document configuration and style registry are
unchanged by each of the seven methods, and the prior story is an initial
segment of the new story. -/
theorem claimC9_theorem (today : String) :
    framePreserving (fun g => g.add_cover_page today) ∧
    framePreserving Generator.add_executive_summary ∧
    framePreserving Generator.add_technical_analysis ∧
    framePreserving Generator.add_optimization_strategies ∧
    framePreserving Generator.add_implementation_plan ∧
    framePreserving Generator.add_roi_analysis ∧
    framePreserving Generator.add_conclusions :=
  ⟨framePreserving_of (fun ss => coverPageBlocks ss today) _ fun _ => rfl,
   framePreserving_of executiveSummaryBlocks _ fun _ => rfl,
   framePreserving_of technicalAnalysisBlocks _ fun _ => rfl,
   framePreserving_of optimizationStrategiesBlocks _ fun _ => rfl,
   framePreserving_of implementationPlanBlocks _ fun _ => rfl,
   framePreserving_of roiAnalysisBlocks _ fun _ => rfl,
   framePreserving_of conclusionsBlocks _ fun _ => rfl⟩

set_option maxHeartbeats 4000000 in
set_option maxRecDepth 20000 in
/-- Claim C10: registration never raises (no custom name collides with a
built-in sample name), every style name the section builders reference
resolves in the registry after initialization — the full run succeeds and
references exactly `CustomTitle`, `CustomSubtitle`, `BodyText`,
`Section`, `Subsection`, `Highlight`, `Code` and `Metric` — and the code
snippets use the built-in sample style `Code`, while the registered
`CustomCode` is never referenced by any block. -/
theorem claimC10_theorem (f today : String) :
    setup_custom_styles sampleStyleSheet = Except.ok reportStyles ∧
    (customStyles.all fun st => sampleStyleSheet.all fun s => s.name != st.name) = true ∧
    ∃ g a, (init f).generate today = Except.ok (g, a) ∧
      (a.story.filterMap styleName?).eraseDups = referencedStyleNames ∧
      (referencedStyleNames.all fun n => (reportStyles.get n).isSome) = true ∧
      (a.story.filterMap styleName?).contains "CustomCode" = false := by
  exact ⟨rfl, rfl, _, _, rfl, rfl, rfl, rfl⟩

end Report

